import Mathlib

/-!
Verification of the heuristic AHRS estimator in `ahrs/ahrs_heuristic.go`
(repository HardBamboo/goflying).

The per-sample update `Compute` is embedded shallowly over the real numbers:
every Go `float64` becomes an `ℝ`, `math.Sqrt`/`math.Acos`/`math.Cos`/`math.Sin`
become `Real.sqrt`/`Real.arccos`/`Real.cos`/`Real.sin`.  External collaborators
that live in other files of the repository (the `Measurement` record, the base
orientation `State`, the constant `G` and the helper `QuaternionAToB`) are
modelled from the specification and are marked as such in their doc comments.
-/

noncomputable section

namespace ahrs

/-- A 3-vector of reals, used for earth/body-frame vectors inside `Compute`. -/
structure Vec3 where
  x : ℝ
  y : ℝ
  z : ℝ

attribute [ext] Vec3

/-- A quaternion given by its four real components, in the source's
`q0, q1, q2, q3` naming. -/
structure Quat where
  q0 : ℝ
  q1 : ℝ
  q2 : ℝ
  q3 : ℝ

attribute [ext] Quat

/-- Dot product of two 3-vectors (source: `u1*v1 + u2*v2 + u3*v3`). -/
def dot3 (a b : Vec3) : ℝ := a.x * b.x + a.y * b.y + a.z * b.z

/-- Cross product of two 3-vectors, componentwise as written in the source. -/
def cross3 (a b : Vec3) : Vec3 :=
  ⟨a.y * b.z - a.z * b.y, a.z * b.x - a.x * b.z, a.x * b.y - a.y * b.x⟩

/-- Euclidean norm of a 3-vector (source: `math.Sqrt(u1*u1 + u2*u2 + u3*u3)`). -/
def norm3 (a : Vec3) : ℝ := Real.sqrt (a.x * a.x + a.y * a.y + a.z * a.z)

/-- Sum of the squares of the four components of a quaternion; the quaternion is
unit iff this equals 1. -/
def quatNormSq (p : Quat) : ℝ := p.q0 * p.q0 + p.q1 * p.q1 + p.q2 * p.q2 + p.q3 * p.q3

/-- `KSHORT = 0.2`, decay constant for the short-term moving average (source, line 8). -/
def KSHORT : ℝ := 0.2

/-- `KLONG = 0.02`, decay constant for the long-term moving average (source, line 9). -/
def KLONG : ℝ := 0.02

/-- Modelled from the spec: the gravitational-acceleration constant `G` is
declared in a repository file outside `src/`; the spec only states that the
finite-difference acceleration is divided by `g` to express it in units of
gravity.  Its concrete positive value (here ft/s², as used by the repository)
does not matter for any claim below beyond `G ≠ 0`. -/
def G : ℝ := 32.174

/-- Modelled from the spec: one timestamped sample bundle (`Measurement` is an
external data type declared outside `src/`).  Only the fields the spec names
and `Compute` reads are modelled: timestamp `T`, GPS-velocity components
`W1..W3` with validity flag `WValid`, accelerometer components `A1..A3`, and
magnetometer components `M1..M3` with validity flag `MValid`. -/
structure Measurement where
  T : ℝ
  W1 : ℝ
  W2 : ℝ
  W3 : ℝ
  WValid : Bool
  A1 : ℝ
  A2 : ℝ
  A3 : ℝ
  M1 : ℝ
  M2 : ℝ
  M3 : ℝ
  MValid : Bool

/-- The estimator state.  The Go `HeuristicState` embeds the shared orientation
base record `State` (declared outside `src/`); following the spec, the base
fields used by `Compute` are flattened in: the orientation quaternion
`E0..E3`, the north-reference vector `N1..N3`, the last-seen timestamp `T` and
the cached rotation-matrix elements `e11..e33`.  The remaining fields are the
heuristic slots declared in the source (lines 12-27). -/
structure HeuristicState where
  E0 : ℝ
  E1 : ℝ
  E2 : ℝ
  E3 : ℝ
  N1 : ℝ
  N2 : ℝ
  N3 : ℝ
  T : ℝ
  e11 : ℝ
  e12 : ℝ
  e13 : ℝ
  e21 : ℝ
  e22 : ℝ
  e23 : ℝ
  e31 : ℝ
  e32 : ℝ
  e33 : ℝ
  Inertial : Bool
  HeadingValid : Bool
  Z1 : ℝ
  Z2 : ℝ
  Z3 : ℝ
  W10 : ℝ
  W20 : ℝ
  W30 : ℝ
  W1S : ℝ
  W2S : ℝ
  W3S : ℝ
  W1L : ℝ
  W2L : ℝ
  W3L : ℝ
  A1S : ℝ
  A2S : ℝ
  A3S : ℝ
  A1L : ℝ
  A2L : ℝ
  A3L : ℝ
  B1S : ℝ
  B2S : ℝ
  B3S : ℝ
  B1L : ℝ
  B2L : ℝ
  B3L : ℝ
  M1S : ℝ
  M2S : ℝ
  M3S : ℝ
  M1L : ℝ
  M2L : ℝ
  M3L : ℝ

/-- The zero value of `HeuristicState`: every numeric field 0, every flag
false.  This is what Go's `new(HeuristicState)` produces. -/
def zeroHState : HeuristicState :=
  { E0 := 0, E1 := 0, E2 := 0, E3 := 0, N1 := 0, N2 := 0, N3 := 0, T := 0,
    e11 := 0, e12 := 0, e13 := 0, e21 := 0, e22 := 0, e23 := 0,
    e31 := 0, e32 := 0, e33 := 0,
    Inertial := false, HeadingValid := false,
    Z1 := 0, Z2 := 0, Z3 := 0, W10 := 0, W20 := 0, W30 := 0,
    W1S := 0, W2S := 0, W3S := 0, W1L := 0, W2L := 0, W3L := 0,
    A1S := 0, A2S := 0, A3S := 0, A1L := 0, A2L := 0, A3L := 0,
    B1S := 0, B2S := 0, B3S := 0, B1L := 0, B2L := 0, B3L := 0,
    M1S := 0, M2S := 0, M3S := 0, M1L := 0, M2L := 0, M3L := 0 }

/-- `InitializeHeuristic` (source, lines 29-32): allocates a fresh zero state;
the `Measurement` argument is never read. -/
def InitializeHeuristic (_m : Measurement) : HeuristicState := zeroHState

/-- Modelled from the spec: `QuaternionAToB` is declared in a repository file
outside `src/`; the spec describes it as "a function that returns the
minimal-rotation quaternion mapping one 3-vector onto another".  The standard
such quaternion has scalar part `‖a‖‖b‖ + a·b` and vector part `a × b`,
normalized. -/
def QuaternionAToB (a1 a2 a3 b1 b2 b3 : ℝ) : Quat :=
  let aNorm := Real.sqrt (a1 * a1 + a2 * a2 + a3 * a3)
  let bNorm := Real.sqrt (b1 * b1 + b2 * b2 + b3 * b3)
  let w := aNorm * bNorm + (a1 * b1 + a2 * b2 + a3 * b3)
  let x := a2 * b3 - a3 * b2
  let y := a3 * b1 - a1 * b3
  let z := a1 * b2 - a2 * b1
  let n := Real.sqrt (w * w + x * x + y * y + z * z)
  ⟨w / n, x / n, y / n, z / n⟩

/-- The startup seeding block (source, lines 36-41): if the previous-velocity
memory is exactly the zero vector, seed it with the current velocity. -/
def seedW (s : HeuristicState) (m : Measurement) : HeuristicState :=
  if s.W10 = 0 ∧ s.W20 = 0 ∧ s.W30 = 0 then
    { s with W10 := m.W1, W20 := m.W2, W30 := m.W3 }
  else s

/-- Stage 1 of `Compute` (source, lines 35-63): velocity/acceleration smoothing
when `WValid`, full reset of `W10..W30`, `W1S..W3S`, `Z1..Z3` otherwise. -/
def stage1 (s : HeuristicState) (m : Measurement) : HeuristicState :=
  if m.WValid then
    let s0 := seedW s m
    { s0 with
      W1S := KSHORT * m.W1 + (1 - KSHORT) * s0.W1S,
      W2S := KSHORT * m.W2 + (1 - KSHORT) * s0.W2S,
      W3S := KSHORT * m.W3 + (1 - KSHORT) * s0.W3S,
      Z1 := KSHORT * (m.W1 - s0.W10) / (m.T - s0.T) / G + (1 - KSHORT) * s0.Z1,
      Z2 := KSHORT * (m.W2 - s0.W20) / (m.T - s0.T) / G + (1 - KSHORT) * s0.Z2,
      Z3 := KSHORT * (m.W3 - s0.W30) / (m.T - s0.T) / G + (1 - KSHORT) * s0.Z3 }
  else
    { s with W10 := 0, W20 := 0, W30 := 0,
             W1S := 0, W2S := 0, W3S := 0,
             Z1 := 0, Z2 := 0, Z3 := 0 }

/-- The apparent-gravity vector `ae = (-Z1, -Z2, -Z3 - 1)` (source, lines 66-68),
read from the post-smoothing state. -/
def aeOf (s1 : HeuristicState) : Vec3 := ⟨-s1.Z1, -s1.Z2, -s1.Z3 - 1⟩

/-- The gravity-alignment quaternion `q` (source, line 72): minimal rotation
mapping `ae` onto the measured accelerometer vector. -/
def qOf (s1 : HeuristicState) (m : Measurement) : Quat :=
  QuaternionAToB (aeOf s1).x (aeOf s1).y (aeOf s1).z m.A1 m.A2 m.A3

/-- The reference heading vector `we` (source, lines 78-89): the normalized
short-term smoothed GPS velocity when `WValid`, else the fixed `(0, 1, 0)`. -/
def weOf (s1 : HeuristicState) (m : Measurement) : Vec3 :=
  if m.WValid then
    let ww := Real.sqrt (s1.W1S * s1.W1S + s1.W2S * s1.W2S + s1.W3S * s1.W3S)
    ⟨s1.W1S / ww, s1.W2S / ww, s1.W3S / ww⟩
  else ⟨0, 1, 0⟩

/-- The sensor forward direction in earth frame (source, lines 92-94): first
column of the rotation matrix of `q`. -/
def xeOf (q : Quat) : Vec3 :=
  ⟨1 - 2 * (q.q3 * q.q3 + q.q2 * q.q2),
   2 * (q.q0 * q.q3 + q.q1 * q.q2),
   2 * (q.q1 * q.q3 - q.q0 * q.q2)⟩

/-- The vector perpendicular to `ae` and `xe` (source, lines 98-104): cross
product divided by its own norm `uu`. -/
def uHat (ae xe : Vec3) : Vec3 :=
  let u0 := cross3 ae xe
  let uu := norm3 u0
  ⟨u0.x / uu, u0.y / uu, u0.z / uu⟩

/-- The vector perpendicular to `ae` and `we` (source, lines 106-112).  The
source computes the divisor as `vv := math.Sqrt(u1*u1 + u2*u2 + u3*u3)`, i.e.
the norm of the already-normalized `u`, not the norm of `ae × we`; this
definition reproduces that exactly, taking the normalized `u` as argument. -/
def vHat (ae we u : Vec3) : Vec3 :=
  let v0 := cross3 ae we
  let vv := norm3 u
  ⟨v0.x / vv, v0.y / vv, v0.z / vv⟩

/-- What the spec says `v` should be ("each normalized by its own magnitude"):
`ae × we` divided by the norm of `ae × we`.  Written from the spec's words for
comparison with the source's `vHat`. -/
def vHatSpecNorm (ae we : Vec3) : Vec3 :=
  let v0 := cross3 ae we
  ⟨v0.x / norm3 v0, v0.y / norm3 v0, v0.z / norm3 v0⟩

/-- The heading-correction angle `alpha = acos(u · v)` (source, line 113). -/
def alphaOf (u v : Vec3) : ℝ := Real.arccos (dot3 u v)

/-- The rotation-by-`alpha`-about-`ae` quaternion `p` (source, lines 117-121). -/
def pQuat (alpha : ℝ) (ae : Vec3) : Quat :=
  let p0 := Real.cos (alpha / 2)
  let sa := Real.sin (alpha / 2)
  ⟨p0, sa * ae.x, sa * ae.y, sa * ae.z⟩

/-- The heading-correction quaternion `p` as computed inside `Compute` for a
post-smoothing state `s1` and measurement `m` (source, lines 96-121). -/
def pOf (s1 : HeuristicState) (m : Measurement) : Quat :=
  let ae := aeOf s1
  let u := uHat ae (xeOf (qOf s1 m))
  let v := vHat ae (weOf s1 m) u
  pQuat (alphaOf u v) ae

/-- The final orientation composition exactly as written in the source
(lines 122-125).  Note the third term of the first component is `p2 * p2`,
not `p2 * q2`. -/
def composeE (p q : Quat) : Quat :=
  ⟨p.q0 * q.q0 - p.q1 * q.q1 - p.q2 * p.q2 - p.q3 * q.q3,
   p.q0 * q.q1 + p.q1 * q.q0 + p.q2 * q.q3 - p.q3 * q.q2,
   p.q0 * q.q2 - p.q1 * q.q3 + p.q2 * q.q0 + p.q3 * q.q1,
   p.q0 * q.q3 + p.q1 * q.q2 - p.q2 * q.q1 + p.q3 * q.q0⟩

/-- The standard four-term Hamilton product `p ⊗ q`, written from the spec's
words for comparison with the source's `composeE`. -/
def hamilton (p q : Quat) : Quat :=
  ⟨p.q0 * q.q0 - p.q1 * q.q1 - p.q2 * q.q2 - p.q3 * q.q3,
   p.q0 * q.q1 + p.q1 * q.q0 + p.q2 * q.q3 - p.q3 * q.q2,
   p.q0 * q.q2 - p.q1 * q.q3 + p.q2 * q.q0 + p.q3 * q.q1,
   p.q0 * q.q3 + p.q1 * q.q2 - p.q2 * q.q1 + p.q3 * q.q0⟩

/-- `Compute` (source, lines 34-138): one per-sample update of the estimator
state, assembled from the stage functions above in source order. -/
def Compute (s : HeuristicState) (m : Measurement) : HeuristicState :=
  let s1 := stage1 s m
  let E := composeE (pOf s1 m) (qOf s1 m)
  let s2 := { s1 with E0 := E.q0, E1 := E.q1, E2 := E.q2, E3 := E.q3,
                      W10 := m.W1, W20 := m.W2, W30 := m.W3, T := m.T }
  if m.MValid then
    { s2 with N1 := m.M1 * s2.e11 + m.M2 * s2.e12 + m.M3 * s2.e13,
              N2 := m.M1 * s2.e21 + m.M2 * s2.e22 + m.M3 * s2.e23,
              N3 := m.M1 * s2.e31 + m.M2 * s2.e32 + m.M3 * s2.e33 }
  else s2

/-- The list of states produced by feeding a list of measurements, in order,
into the estimator (one `Compute` call per measurement). -/
def runTrace (s : HeuristicState) : List Measurement → List HeuristicState
  | [] => []
  | m :: ms => Compute s m :: runTrace (Compute s m) ms

/-- The orientation quaternion stored in a state. -/
def quatE (s : HeuristicState) : Quat := ⟨s.E0, s.E1, s.E2, s.E3⟩

/-- A concrete sample with `WValid = false` and nonzero raw velocity,
used for the claims about the invalid-GPS path. -/
def mNoW : Measurement :=
  { T := 10, W1 := 5, W2 := 6, W3 := 7, WValid := false,
    A1 := 0, A2 := 0, A3 := -1, M1 := 1, M2 := 2, M3 := 3, MValid := true }

/-- A concrete sample with `WValid = true` fed to a fresh (all-zero) state, so
the seeding branch of stage 1 fires. -/
def mSeed : Measurement :=
  { T := 1, W1 := 1, W2 := 2, W3 := 3, WValid := true,
    A1 := 0, A2 := 0, A3 := -1, M1 := 0, M2 := 0, M3 := 0, MValid := false }

/-- First measurement of the reachable scenario: straight north GPS velocity
`5·G`, level accelerometer, no magnetometer.  `InitializeHeuristic` ignores its
argument, so this sample also serves as its argument. -/
def mA : Measurement :=
  { T := 1, W1 := 0, W2 := 5 * G, W3 := 0, WValid := true,
    A1 := 0, A2 := 0, A3 := -1, M1 := 0, M2 := 0, M3 := 0, MValid := false }

/-- Second scenario measurement: same velocity one second later, so the
smoothed acceleration stays zero. -/
def mB : Measurement :=
  { T := 2, W1 := 0, W2 := 5 * G, W3 := 0, WValid := true,
    A1 := 0, A2 := 0, A3 := -1, M1 := 0, M2 := 0, M3 := 0, MValid := false }

/-- Third scenario measurement: the velocity jumps to `35·G/4`, producing a
smoothed acceleration `Z2 = 3/4` g, and the accelerometer reads the matching
apparent gravity `(0, -3/4, -1)`. -/
def mC : Measurement :=
  { T := 3, W1 := 0, W2 := 35 * G / 4, W3 := 0, WValid := true,
    A1 := 0, A2 := -(3 / 4), A3 := -1, M1 := 0, M2 := 0, M3 := 0, MValid := false }

/-- The state reached after the first scenario call. -/
def st1 : HeuristicState := Compute (InitializeHeuristic mA) mA

/-- The state reached after the second scenario call. -/
def st2 : HeuristicState := Compute st1 mB

/-- The state reached after the third scenario call. -/
def st3 : HeuristicState := Compute st2 mC

/-- Explicit value of `st1`. -/
def st1Val : HeuristicState :=
  { zeroHState with E0 := Real.sqrt 2 / 2, E3 := -(Real.sqrt 2 / 2),
                    T := 1, W20 := 5 * G, W2S := G }

/-- Explicit value of `st2`. -/
def st2Val : HeuristicState :=
  { zeroHState with E0 := Real.sqrt 2 / 2, E3 := -(Real.sqrt 2 / 2),
                    T := 2, W20 := 5 * G, W2S := 9 * G / 5 }

/-- Explicit value of `st3`. -/
def st3Val : HeuristicState :=
  { zeroHState with E0 := Real.sqrt 2 / 2 - 9 / 32, E2 := -(3 * Real.sqrt 2 / 8),
                    E3 := -(Real.sqrt 2 / 2),
                    T := 3, W20 := 35 * G / 4, W2S := 319 * G / 100, Z2 := 3 / 4 }

/-- Post-smoothing state inside the first call. -/
def s1a : HeuristicState := { zeroHState with W20 := 5 * G, W2S := G }

/-- Post-smoothing state inside the second call. -/
def s1b : HeuristicState := { st1Val with W2S := 9 * G / 5 }

/-- Post-smoothing state inside the third call. -/
def s1c : HeuristicState := { st2Val with W2S := 319 * G / 100, Z2 := 3 / 4 }

/-- Field-wise extensionality for the 49-field estimator state (hand-written:
the statement is what the ext tactic needs, with a compact proof term). -/
@[ext] lemma HeuristicState.fieldsEq (a b : HeuristicState)
    (h1 : a.E0 = b.E0) (h2 : a.E1 = b.E1)
    (h3 : a.E2 = b.E2) (h4 : a.E3 = b.E3)
    (h5 : a.N1 = b.N1) (h6 : a.N2 = b.N2)
    (h7 : a.N3 = b.N3) (h8 : a.T = b.T)
    (h9 : a.e11 = b.e11) (h10 : a.e12 = b.e12)
    (h11 : a.e13 = b.e13) (h12 : a.e21 = b.e21)
    (h13 : a.e22 = b.e22) (h14 : a.e23 = b.e23)
    (h15 : a.e31 = b.e31) (h16 : a.e32 = b.e32)
    (h17 : a.e33 = b.e33) (h18 : a.Inertial = b.Inertial)
    (h19 : a.HeadingValid = b.HeadingValid) (h20 : a.Z1 = b.Z1)
    (h21 : a.Z2 = b.Z2) (h22 : a.Z3 = b.Z3)
    (h23 : a.W10 = b.W10) (h24 : a.W20 = b.W20)
    (h25 : a.W30 = b.W30) (h26 : a.W1S = b.W1S)
    (h27 : a.W2S = b.W2S) (h28 : a.W3S = b.W3S)
    (h29 : a.W1L = b.W1L) (h30 : a.W2L = b.W2L)
    (h31 : a.W3L = b.W3L) (h32 : a.A1S = b.A1S)
    (h33 : a.A2S = b.A2S) (h34 : a.A3S = b.A3S)
    (h35 : a.A1L = b.A1L) (h36 : a.A2L = b.A2L)
    (h37 : a.A3L = b.A3L) (h38 : a.B1S = b.B1S)
    (h39 : a.B2S = b.B2S) (h40 : a.B3S = b.B3S)
    (h41 : a.B1L = b.B1L) (h42 : a.B2L = b.B2L)
    (h43 : a.B3L = b.B3L) (h44 : a.M1S = b.M1S)
    (h45 : a.M2S = b.M2S) (h46 : a.M3S = b.M3S)
    (h47 : a.M1L = b.M1L) (h48 : a.M2L = b.M2L)
    (h49 : a.M3L = b.M3L)
    : a = b := by
  cases a; cases b
  rw [HeuristicState.mk.injEq]
  exact ⟨h1, h2, h3, h4, h5, h6, h7, h8, h9, h10, h11, h12, h13, h14, h15, h16, h17, h18, h19, h20, h21, h22, h23, h24, h25, h26, h27, h28, h29, h30, h31, h32, h33, h34, h35, h36, h37, h38, h39, h40, h41, h42, h43, h44, h45, h46, h47, h48, h49⟩

lemma seedW_T (s : HeuristicState) (m : Measurement) : (seedW s m).T = s.T := by
  unfold seedW; split <;> rfl

lemma seedW_Z1 (s : HeuristicState) (m : Measurement) : (seedW s m).Z1 = s.Z1 := by
  unfold seedW; split <;> rfl

lemma seedW_Z2 (s : HeuristicState) (m : Measurement) : (seedW s m).Z2 = s.Z2 := by
  unfold seedW; split <;> rfl

lemma seedW_Z3 (s : HeuristicState) (m : Measurement) : (seedW s m).Z3 = s.Z3 := by
  unfold seedW; split <;> rfl

lemma seedW_W1S (s : HeuristicState) (m : Measurement) : (seedW s m).W1S = s.W1S := by
  unfold seedW; split <;> rfl

lemma seedW_W2S (s : HeuristicState) (m : Measurement) : (seedW s m).W2S = s.W2S := by
  unfold seedW; split <;> rfl

lemma seedW_W3S (s : HeuristicState) (m : Measurement) : (seedW s m).W3S = s.W3S := by
  unfold seedW; split <;> rfl

/-- Seeding leaves the north vector and the rotation-matrix elements alone. -/
lemma seedW_keep (s : HeuristicState) (m : Measurement) :
    (seedW s m).N1 = s.N1 ∧ (seedW s m).N2 = s.N2 ∧ (seedW s m).N3 = s.N3 ∧
    (seedW s m).e11 = s.e11 ∧ (seedW s m).e12 = s.e12 ∧ (seedW s m).e13 = s.e13 ∧
    (seedW s m).e21 = s.e21 ∧ (seedW s m).e22 = s.e22 ∧ (seedW s m).e23 = s.e23 ∧
    (seedW s m).e31 = s.e31 ∧ (seedW s m).e32 = s.e32 ∧ (seedW s m).e33 = s.e33 := by
  unfold seedW
  split <;> exact ⟨rfl, rfl, rfl, rfl, rfl, rfl, rfl, rfl, rfl, rfl, rfl, rfl⟩

/-- Stage 1 leaves the north vector and the rotation-matrix elements alone. -/
lemma stage1_keep (s : HeuristicState) (m : Measurement) :
    (stage1 s m).N1 = s.N1 ∧ (stage1 s m).N2 = s.N2 ∧ (stage1 s m).N3 = s.N3 ∧
    (stage1 s m).e11 = s.e11 ∧ (stage1 s m).e12 = s.e12 ∧ (stage1 s m).e13 = s.e13 ∧
    (stage1 s m).e21 = s.e21 ∧ (stage1 s m).e22 = s.e22 ∧ (stage1 s m).e23 = s.e23 ∧
    (stage1 s m).e31 = s.e31 ∧ (stage1 s m).e32 = s.e32 ∧ (stage1 s m).e33 = s.e33 := by
  unfold stage1
  split
  · exact seedW_keep s m
  · exact ⟨rfl, rfl, rfl, rfl, rfl, rfl, rfl, rfl, rfl, rfl, rfl, rfl⟩

/-- Claim C4: for every prior state and every measurement with `WValid = false`,
after `Compute` the smoothed accelerations `Z1..Z3` and the short-term smoothed
velocities `W1S..W3S` are all exactly zero. -/
theorem c4_reset_on_invalid_gps (s : HeuristicState) (m : Measurement)
    (h : m.WValid = false) :
    (Compute s m).Z1 = 0 ∧ (Compute s m).Z2 = 0 ∧ (Compute s m).Z3 = 0 ∧
    (Compute s m).W1S = 0 ∧ (Compute s m).W2S = 0 ∧ (Compute s m).W3S = 0 := by
  cases hM : m.MValid <;> simp [Compute, stage1, h, hM]

/-- Witness for C4 at a concrete state and measurement. -/
theorem c4_reset_on_invalid_gps_witness :
    (Compute zeroHState mNoW).Z1 = 0 ∧ (Compute zeroHState mNoW).Z2 = 0 ∧
    (Compute zeroHState mNoW).Z3 = 0 ∧ (Compute zeroHState mNoW).W1S = 0 ∧
    (Compute zeroHState mNoW).W2S = 0 ∧ (Compute zeroHState mNoW).W3S = 0 :=
  c4_reset_on_invalid_gps zeroHState mNoW rfl

/-- Claim C5, counterexample: with `WValid = false` and raw velocity `W1 = 5`,
the previous-velocity memory `W10` after `Compute` is 5, not 0 — the
unconditional end-of-call bookkeeping overwrites the mid-call reset. -/
theorem c5_counterexample :
    mNoW.WValid = false ∧ (Compute zeroHState mNoW).W10 = 5 ∧ ((5 : ℝ) ≠ 0) := by
  refine ⟨rfl, ?_, by norm_num⟩
  simp [Compute, stage1, mNoW]

/-- Claim C5, amended: after a `Compute` call with `WValid = false`, the fields
`W10, W20, W30` equal the measurement's raw velocity components `W1, W2, W3`
(they are zeroed mid-call, then unconditionally overwritten by the final
bookkeeping), so they are zero only when the raw components are. -/
theorem c5_amended_prev_velocity (s : HeuristicState) (m : Measurement)
    (h : m.WValid = false) :
    (Compute s m).W10 = m.W1 ∧ (Compute s m).W20 = m.W2 ∧ (Compute s m).W30 = m.W3 := by
  cases hM : m.MValid <;> simp [Compute, stage1, h, hM]

/-- Witness for the amended C5 at a concrete state and measurement. -/
theorem c5_amended_prev_velocity_witness :
    (Compute zeroHState mNoW).W10 = mNoW.W1 ∧
    (Compute zeroHState mNoW).W20 = mNoW.W2 ∧
    (Compute zeroHState mNoW).W30 = mNoW.W3 :=
  c5_amended_prev_velocity zeroHState mNoW rfl

/-- Claim C6, counterexample: on a fresh state (previous-velocity memory all
zero) with `WValid = true` and `W1 = 1`, the code stores `Z1 = 0`, while the
claim's formula with the at-entry value `W10 = 0` predicts
`0.2·(1-0)/(1-0)/G ≠ 0`. -/
theorem c6_counterexample :
    mSeed.WValid = true ∧ (Compute zeroHState mSeed).Z1 = 0 ∧
    KSHORT * (mSeed.W1 - zeroHState.W10) / (mSeed.T - zeroHState.T) / G +
      (1 - KSHORT) * zeroHState.Z1 ≠ 0 := by
  refine ⟨rfl, ?_, ?_⟩
  · simp [Compute, stage1, seedW, mSeed, zeroHState]
  · norm_num [KSHORT, G, mSeed, zeroHState]

/-- Claim C6, amended: for every measurement with `WValid = true`, each
smoothed-velocity axis is updated as `W_S' = 0.2·W_new + 0.8·W_S`, and each
smoothed-acceleration axis as `Z' = 0.2·(W_new - W_prev)/(T_new - T_prev)/G
+ 0.8·Z`, where `T_prev` is the stored `T` at entry and `W_prev` is the stored
`W10/W20/W30` after the zero-vector seeding step (equal to the entry values
unless all three are zero at entry, in which case `W_prev = W_new`). -/
theorem c6_amended_smoothing (s : HeuristicState) (m : Measurement)
    (h : m.WValid = true) :
    (Compute s m).W1S = KSHORT * m.W1 + (1 - KSHORT) * s.W1S ∧
    (Compute s m).W2S = KSHORT * m.W2 + (1 - KSHORT) * s.W2S ∧
    (Compute s m).W3S = KSHORT * m.W3 + (1 - KSHORT) * s.W3S ∧
    (Compute s m).Z1 =
      KSHORT * (m.W1 - (seedW s m).W10) / (m.T - s.T) / G + (1 - KSHORT) * s.Z1 ∧
    (Compute s m).Z2 =
      KSHORT * (m.W2 - (seedW s m).W20) / (m.T - s.T) / G + (1 - KSHORT) * s.Z2 ∧
    (Compute s m).Z3 =
      KSHORT * (m.W3 - (seedW s m).W30) / (m.T - s.T) / G + (1 - KSHORT) * s.Z3 := by
  cases hM : m.MValid <;>
    simp [Compute, stage1, h, hM, seedW_T, seedW_Z1, seedW_Z2, seedW_Z3,
          seedW_W1S, seedW_W2S, seedW_W3S]

/-- Witness for the amended C6 at a concrete state and measurement. -/
theorem c6_amended_smoothing_witness :
    (Compute zeroHState mSeed).W1S = KSHORT * mSeed.W1 + (1 - KSHORT) * zeroHState.W1S ∧
    (Compute zeroHState mSeed).W2S = KSHORT * mSeed.W2 + (1 - KSHORT) * zeroHState.W2S ∧
    (Compute zeroHState mSeed).W3S = KSHORT * mSeed.W3 + (1 - KSHORT) * zeroHState.W3S ∧
    (Compute zeroHState mSeed).Z1 =
      KSHORT * (mSeed.W1 - (seedW zeroHState mSeed).W10) / (mSeed.T - zeroHState.T) / G +
        (1 - KSHORT) * zeroHState.Z1 ∧
    (Compute zeroHState mSeed).Z2 =
      KSHORT * (mSeed.W2 - (seedW zeroHState mSeed).W20) / (mSeed.T - zeroHState.T) / G +
        (1 - KSHORT) * zeroHState.Z2 ∧
    (Compute zeroHState mSeed).Z3 =
      KSHORT * (mSeed.W3 - (seedW zeroHState mSeed).W30) / (mSeed.T - zeroHState.T) / G +
        (1 - KSHORT) * zeroHState.Z3 :=
  c6_amended_smoothing zeroHState mSeed rfl

/-- Claim C7: with `WValid = true` and the previous-velocity memory exactly
zero at entry, the memory is seeded with the current velocity, the
finite-difference terms of the `Z` update vanish exactly, and each `Z` axis is
merely decayed (`Z' = 0.8·Z`): no acceleration spike on restart. -/
theorem c7_seed_no_spike (s : HeuristicState) (m : Measurement)
    (hw : m.WValid = true) (h1 : s.W10 = 0) (h2 : s.W20 = 0) (h3 : s.W30 = 0) :
    (seedW s m).W10 = m.W1 ∧ (seedW s m).W20 = m.W2 ∧ (seedW s m).W30 = m.W3 ∧
    m.W1 - (seedW s m).W10 = 0 ∧ m.W2 - (seedW s m).W20 = 0 ∧ m.W3 - (seedW s m).W30 = 0 ∧
    (Compute s m).Z1 = (1 - KSHORT) * s.Z1 ∧
    (Compute s m).Z2 = (1 - KSHORT) * s.Z2 ∧
    (Compute s m).Z3 = (1 - KSHORT) * s.Z3 := by
  have hseed : seedW s m = { s with W10 := m.W1, W20 := m.W2, W30 := m.W3 } := by
    unfold seedW; rw [if_pos ⟨h1, h2, h3⟩]
  refine ⟨by rw [hseed], by rw [hseed], by rw [hseed],
          by rw [hseed]; simp, by rw [hseed]; simp, by rw [hseed]; simp, ?_, ?_, ?_⟩ <;>
    cases hM : m.MValid <;> simp [Compute, stage1, hw, hM, hseed]

/-- Witness for C7 at a concrete state and measurement. -/
theorem c7_seed_no_spike_witness :
    (seedW zeroHState mSeed).W10 = mSeed.W1 ∧ (seedW zeroHState mSeed).W20 = mSeed.W2 ∧
    (seedW zeroHState mSeed).W30 = mSeed.W3 ∧
    mSeed.W1 - (seedW zeroHState mSeed).W10 = 0 ∧
    mSeed.W2 - (seedW zeroHState mSeed).W20 = 0 ∧
    mSeed.W3 - (seedW zeroHState mSeed).W30 = 0 ∧
    (Compute zeroHState mSeed).Z1 = (1 - KSHORT) * zeroHState.Z1 ∧
    (Compute zeroHState mSeed).Z2 = (1 - KSHORT) * zeroHState.Z2 ∧
    (Compute zeroHState mSeed).Z3 = (1 - KSHORT) * zeroHState.Z3 :=
  c7_seed_no_spike zeroHState mSeed rfl rfl rfl rfl

/-- Claim C8: the magnetometer block is honored exactly: with `MValid = false`
the north vector `N1..N3` is left unchanged; with `MValid = true` it is set to
the raw magnetometer vector projected through the state's stored
rotation-matrix elements `e11..e33` (which `Compute` never modifies); and the
orientation quaternion `E0..E3` produced by `Compute` does not depend on the
magnetometer fields or on `MValid` at all. -/
theorem c8_magnetic_projection (s : HeuristicState) (m : Measurement) :
    (m.MValid = false →
      (Compute s m).N1 = s.N1 ∧ (Compute s m).N2 = s.N2 ∧ (Compute s m).N3 = s.N3) ∧
    (m.MValid = true →
      (Compute s m).N1 = m.M1 * s.e11 + m.M2 * s.e12 + m.M3 * s.e13 ∧
      (Compute s m).N2 = m.M1 * s.e21 + m.M2 * s.e22 + m.M3 * s.e23 ∧
      (Compute s m).N3 = m.M1 * s.e31 + m.M2 * s.e32 + m.M3 * s.e33) ∧
    (∀ x y z : ℝ, ∀ b : Bool,
      (Compute s { m with M1 := x, M2 := y, M3 := z, MValid := b }).E0 = (Compute s m).E0 ∧
      (Compute s { m with M1 := x, M2 := y, M3 := z, MValid := b }).E1 = (Compute s m).E1 ∧
      (Compute s { m with M1 := x, M2 := y, M3 := z, MValid := b }).E2 = (Compute s m).E2 ∧
      (Compute s { m with M1 := x, M2 := y, M3 := z, MValid := b }).E3 = (Compute s m).E3) := by
  obtain ⟨hN1, hN2, hN3, h11, h12, h13, h21, h22, h23, h31, h32, h33⟩ := stage1_keep s m
  refine ⟨fun hM => ?_, fun hM => ?_, fun x y z b => ?_⟩
  · simp [Compute, hM, hN1, hN2, hN3]
  · simp [Compute, hM, h11, h12, h13, h21, h22, h23, h31, h32, h33]
  · cases b <;> cases hM : m.MValid <;>
      refine ⟨?_, ?_, ?_, ?_⟩ <;> simp [Compute, hM] <;> rfl

/-- Witness for C8 at concrete states and measurements: both validity branches
and one magnetometer-field replacement are exercised. -/
theorem c8_magnetic_projection_witness :
    ((Compute zeroHState mSeed).N1 = zeroHState.N1 ∧
      (Compute zeroHState mSeed).N2 = zeroHState.N2 ∧
      (Compute zeroHState mSeed).N3 = zeroHState.N3) ∧
    ((Compute zeroHState mNoW).N1 =
        mNoW.M1 * zeroHState.e11 + mNoW.M2 * zeroHState.e12 + mNoW.M3 * zeroHState.e13 ∧
      (Compute zeroHState mNoW).N2 =
        mNoW.M1 * zeroHState.e21 + mNoW.M2 * zeroHState.e22 + mNoW.M3 * zeroHState.e23 ∧
      (Compute zeroHState mNoW).N3 =
        mNoW.M1 * zeroHState.e31 + mNoW.M2 * zeroHState.e32 + mNoW.M3 * zeroHState.e33) ∧
    (Compute zeroHState { mSeed with M1 := 9, M2 := 8, M3 := 7, MValid := true }).E0 =
      (Compute zeroHState mSeed).E0 :=
  ⟨(c8_magnetic_projection zeroHState mSeed).1 rfl,
   (c8_magnetic_projection zeroHState mNoW).2.1 rfl,
   ((c8_magnetic_projection zeroHState mSeed).2.2 9 8 7 true).1⟩

/-- Claim C9: `Compute` is deterministic — two runs started from freshly
initialized states and fed identical measurement sequences produce identical
state traces (in particular identical quaternions `E0..E3` after every call). -/
theorem c9_deterministic (m0 m0' : Measurement) (ms ms' : List Measurement)
    (h : ms = ms') :
    runTrace (InitializeHeuristic m0) ms = runTrace (InitializeHeuristic m0') ms' := by
  subst h; rfl

/-- Witness for C9 at concrete measurement sequences. -/
theorem c9_deterministic_witness :
    runTrace (InitializeHeuristic mNoW) [mSeed, mNoW] =
      runTrace (InitializeHeuristic mSeed) [mSeed, mNoW] :=
  c9_deterministic mNoW mSeed [mSeed, mNoW] [mSeed, mNoW] rfl

lemma Gpos : (0 : ℝ) < G := by norm_num [G]

/-- Evaluation rule for `norm3` when the sum of squares is a known square. -/
lemma norm3_eval (a : Vec3) (c : ℝ) (hc : 0 ≤ c)
    (h : a.x * a.x + a.y * a.y + a.z * a.z = c * c) : norm3 a = c := by
  rw [norm3, h, Real.sqrt_mul_self hc]

/-- `QuaternionAToB` maps a nonzero vector onto itself by the identity rotation. -/
lemma qAtoB_self (a1 a2 a3 : ℝ) (h : 0 < a1 * a1 + a2 * a2 + a3 * a3) :
    QuaternionAToB a1 a2 a3 a1 a2 a3 = ⟨1, 0, 0, 0⟩ := by
  have hS := Real.mul_self_sqrt h.le
  have h2 : (0 : ℝ) <
      (a1 * a1 + a2 * a2 + a3 * a3) + (a1 * a1 + a2 * a2 + a3 * a3) := by linarith
  simp only [QuaternionAToB, hS, show a2 * a3 - a3 * a2 = (0 : ℝ) by ring,
    show a3 * a1 - a1 * a3 = (0 : ℝ) by ring, show a1 * a2 - a2 * a1 = (0 : ℝ) by ring,
    zero_mul, mul_zero, add_zero]
  rw [Real.sqrt_mul_self h2.le]
  ext <;> simp [div_self h2.ne', Quat.mk.injEq]

/-- When the smoothed velocity lies along the positive second axis, `we` is the
unit second-axis vector. -/
lemma weOf_posAxis (s1 : HeuristicState) (m : Measurement) (hw : m.WValid = true)
    (h1 : s1.W1S = 0) (h3 : s1.W3S = 0) (hc : 0 < s1.W2S) :
    weOf s1 m = ⟨0, 1, 0⟩ := by
  simp only [weOf, hw, if_true, h1, h3, zero_mul, mul_zero, zero_add, add_zero]
  rw [Real.sqrt_mul_self hc.le]
  ext <;> simp [div_self hc.ne']

/-- The forward axis of the identity quaternion is the first axis. -/
lemma xeOf_id : xeOf ⟨1, 0, 0, 0⟩ = ⟨1, 0, 0⟩ := by
  ext <;> norm_num [xeOf]

/-- `pQuat` at a right angle: half-angle π/4, cosine and sine both √2/2. -/
lemma pQuat_halfpi (ae : Vec3) :
    pQuat (Real.pi / 2) ae =
      ⟨Real.sqrt 2 / 2, Real.sqrt 2 / 2 * ae.x, Real.sqrt 2 / 2 * ae.y,
        Real.sqrt 2 / 2 * ae.z⟩ := by
  unfold pQuat
  rw [show Real.pi / 2 / 2 = Real.pi / 4 by ring, Real.cos_pi_div_four,
    Real.sin_pi_div_four]

/-- Composing with the identity gravity quaternion: only the first component
feels the source's `p2 * p2` term. -/
lemma composeE_id (p : Quat) :
    composeE p ⟨1, 0, 0, 0⟩ = ⟨p.q0 - p.q2 * p.q2, p.q1, p.q2, p.q3⟩ := by
  unfold composeE; ext <;> simp

/-- `uHat` for the straight-down apparent gravity `(0,0,-1)` and forward axis
`(1,0,0)`. -/
lemma uHat_vert : uHat ⟨0, 0, -1⟩ ⟨1, 0, 0⟩ = ⟨0, -1, 0⟩ := by
  have hcross : cross3 ⟨0, 0, -1⟩ ⟨1, 0, 0⟩ = ⟨0, -1, 0⟩ := by
    ext <;> norm_num [cross3]
  have hn : norm3 (⟨0, -1, 0⟩ : Vec3) = 1 := norm3_eval _ 1 (by norm_num) (by norm_num)
  simp only [uHat, hcross, hn]
  ext <;> norm_num

/-- `vHat` in the same configuration: the divisor is the norm of the normalized
`u`, which is 1. -/
lemma vHat_vert : vHat ⟨0, 0, -1⟩ ⟨0, 1, 0⟩ ⟨0, -1, 0⟩ = ⟨1, 0, 0⟩ := by
  have hcross : cross3 ⟨0, 0, -1⟩ ⟨0, 1, 0⟩ = ⟨1, 0, 0⟩ := by
    ext <;> norm_num [cross3]
  have hn : norm3 (⟨0, -1, 0⟩ : Vec3) = 1 := norm3_eval _ 1 (by norm_num) (by norm_num)
  simp only [vHat, hcross, hn]
  ext <;> norm_num

/-- `uHat` for the tilted apparent gravity `(0, -3/4, -1)` of the third
scenario call. -/
lemma uHat_tilt : uHat ⟨0, -(3 / 4), -1⟩ ⟨1, 0, 0⟩ = ⟨0, -(4 / 5), 3 / 5⟩ := by
  have hcross : cross3 ⟨0, -(3 / 4), -1⟩ ⟨1, 0, 0⟩ = ⟨0, -1, 3 / 4⟩ := by
    ext <;> norm_num [cross3]
  have hn : norm3 (⟨0, -1, 3 / 4⟩ : Vec3) = 5 / 4 :=
    norm3_eval _ (5 / 4) (by norm_num) (by norm_num)
  simp only [uHat, hcross, hn]
  ext <;> norm_num

/-- `vHat` for the tilted apparent gravity of the third scenario call. -/
lemma vHat_tilt :
    vHat ⟨0, -(3 / 4), -1⟩ ⟨0, 1, 0⟩ ⟨0, -(4 / 5), 3 / 5⟩ = ⟨1, 0, 0⟩ := by
  have hcross : cross3 ⟨0, -(3 / 4), -1⟩ ⟨0, 1, 0⟩ = ⟨1, 0, 0⟩ := by
    ext <;> norm_num [cross3]
  have hn : norm3 (⟨0, -(4 / 5), 3 / 5⟩ : Vec3) = 1 :=
    norm3_eval _ 1 (by norm_num) (by norm_num)
  simp only [vHat, hcross, hn]
  ext <;> norm_num

/-- Expansion of `Compute` when the magnetometer block is skipped. -/
lemma Compute_eval (s : HeuristicState) (m : Measurement) (hM : m.MValid = false) :
    Compute s m =
      { stage1 s m with
        E0 := (composeE (pOf (stage1 s m) m) (qOf (stage1 s m) m)).q0,
        E1 := (composeE (pOf (stage1 s m) m) (qOf (stage1 s m) m)).q1,
        E2 := (composeE (pOf (stage1 s m) m) (qOf (stage1 s m) m)).q2,
        E3 := (composeE (pOf (stage1 s m) m) (qOf (stage1 s m) m)).q3,
        W10 := m.W1, W20 := m.W2, W30 := m.W3, T := m.T } := by
  simp [Compute, hM]

lemma stage1_mA : stage1 zeroHState mA = s1a := by
  ext <;> simp [stage1, seedW, mA, zeroHState, s1a, KSHORT] <;> ring

lemma stage1_mB : stage1 st1Val mB = s1b := by
  have h5G : (5 : ℝ) * G ≠ 0 := by norm_num [G]
  ext <;> simp [stage1, seedW, mB, st1Val, zeroHState, s1b, h5G, KSHORT] <;> ring

lemma stage1_mC : stage1 st2Val mC = s1c := by
  have h5G : (5 : ℝ) * G ≠ 0 := by norm_num [G]
  have hG : G ≠ 0 := Gpos.ne'
  ext <;> simp [stage1, seedW, mC, st2Val, zeroHState, s1c, h5G, KSHORT] <;>
    field_simp <;> ring

/-- The gravity quaternion and heading quaternion of the first scenario call. -/
lemma pq_call1 :
    qOf s1a mA = ⟨1, 0, 0, 0⟩ ∧
    pOf s1a mA = ⟨Real.sqrt 2 / 2, 0, 0, -(Real.sqrt 2 / 2)⟩ := by
  have hae : aeOf s1a = ⟨0, 0, -1⟩ := by
    ext <;> norm_num [aeOf, s1a, zeroHState]
  have hq : qOf s1a mA = ⟨1, 0, 0, 0⟩ := by
    rw [qOf, hae]
    show QuaternionAToB 0 0 (-1) mA.A1 mA.A2 mA.A3 = ⟨1, 0, 0, 0⟩
    rw [show mA.A1 = 0 from rfl, show mA.A2 = 0 from rfl, show mA.A3 = -1 from rfl]
    exact qAtoB_self 0 0 (-1) (by norm_num)
  have hwe : weOf s1a mA = ⟨0, 1, 0⟩ :=
    weOf_posAxis s1a mA rfl rfl rfl (by simp [s1a, zeroHState]; exact Gpos)
  refine ⟨hq, ?_⟩
  rw [pOf]
  simp only [hae, hq, hwe, xeOf_id, uHat_vert, vHat_vert, alphaOf]
  rw [show dot3 ⟨0, -1, 0⟩ ⟨1, 0, 0⟩ = 0 by norm_num [dot3], Real.arccos_zero,
    pQuat_halfpi]
  ext <;> norm_num

/-- The gravity quaternion and heading quaternion of the second scenario call. -/
lemma pq_call2 :
    qOf s1b mB = ⟨1, 0, 0, 0⟩ ∧
    pOf s1b mB = ⟨Real.sqrt 2 / 2, 0, 0, -(Real.sqrt 2 / 2)⟩ := by
  have hae : aeOf s1b = ⟨0, 0, -1⟩ := by
    ext <;> norm_num [aeOf, s1b, st1Val, zeroHState]
  have hq : qOf s1b mB = ⟨1, 0, 0, 0⟩ := by
    rw [qOf, hae]
    show QuaternionAToB 0 0 (-1) mB.A1 mB.A2 mB.A3 = ⟨1, 0, 0, 0⟩
    rw [show mB.A1 = 0 from rfl, show mB.A2 = 0 from rfl, show mB.A3 = -1 from rfl]
    exact qAtoB_self 0 0 (-1) (by norm_num)
  have hwe : weOf s1b mB = ⟨0, 1, 0⟩ :=
    weOf_posAxis s1b mB rfl rfl rfl (by norm_num [s1b, st1Val, zeroHState, G])
  refine ⟨hq, ?_⟩
  rw [pOf]
  simp only [hae, hq, hwe, xeOf_id, uHat_vert, vHat_vert, alphaOf]
  rw [show dot3 ⟨0, -1, 0⟩ ⟨1, 0, 0⟩ = 0 by norm_num [dot3], Real.arccos_zero,
    pQuat_halfpi]
  ext <;> norm_num

/-- The gravity quaternion and heading quaternion of the third scenario call:
the apparent gravity is tilted, so the heading-correction quaternion has a
nonzero third component. -/
lemma pq_call3 :
    qOf s1c mC = ⟨1, 0, 0, 0⟩ ∧
    pOf s1c mC =
      ⟨Real.sqrt 2 / 2, 0, -(3 * Real.sqrt 2 / 8), -(Real.sqrt 2 / 2)⟩ := by
  have hae : aeOf s1c = ⟨0, -(3 / 4), -1⟩ := by
    ext <;> norm_num [aeOf, s1c, st2Val, zeroHState]
  have hq : qOf s1c mC = ⟨1, 0, 0, 0⟩ := by
    rw [qOf, hae]
    show QuaternionAToB 0 (-(3 / 4)) (-1) mC.A1 mC.A2 mC.A3 = ⟨1, 0, 0, 0⟩
    rw [show mC.A1 = 0 from rfl, show mC.A2 = -(3 / 4) from rfl,
      show mC.A3 = -1 from rfl]
    exact qAtoB_self 0 (-(3 / 4)) (-1) (by norm_num)
  have hwe : weOf s1c mC = ⟨0, 1, 0⟩ :=
    weOf_posAxis s1c mC rfl rfl rfl (by norm_num [s1c, st2Val, zeroHState, G])
  refine ⟨hq, ?_⟩
  rw [pOf]
  simp only [hae, hq, hwe, xeOf_id, uHat_tilt, vHat_tilt, alphaOf]
  rw [show dot3 ⟨0, -(4 / 5), 3 / 5⟩ ⟨1, 0, 0⟩ = 0 by norm_num [dot3],
    Real.arccos_zero, pQuat_halfpi]
  ext <;> ring

lemma st1_eq : st1 = st1Val := by
  rw [st1, show InitializeHeuristic mA = zeroHState from rfl,
    Compute_eval zeroHState mA rfl, stage1_mA, pq_call1.1, pq_call1.2, composeE_id]
  ext <;> simp [s1a, st1Val, zeroHState, mA] <;> norm_num

lemma st2_eq : st2 = st2Val := by
  rw [st2, st1_eq, Compute_eval st1Val mB rfl, stage1_mB, pq_call2.1, pq_call2.2,
    composeE_id]
  ext <;> simp [s1b, st1Val, st2Val, zeroHState, mB] <;> norm_num

lemma st3_eq : st3 = st3Val := by
  have hr : Real.sqrt 2 * Real.sqrt 2 = 2 := Real.mul_self_sqrt (by norm_num)
  rw [st3, st2_eq, Compute_eval st2Val mC rfl, stage1_mC, pq_call3.1, pq_call3.2,
    composeE_id]
  ext <;> simp [s1c, st2Val, st3Val, zeroHState, mC] <;>
    linear_combination (9 / 64 : ℝ) * hr

/-- Claim C1: after the third call of a well-conditioned reachable scenario
(fresh initialization, three valid GPS samples with strictly increasing
timestamps and matching accelerometer readings), the stored orientation
quaternion has squared norm `1 + 369/1024 - (9/32)·√2 ≈ 0.9626`, bounded away
from 1 — the unit-norm invariant is not preserved by `Compute`. -/
theorem c1_unit_norm_violated :
    quatNormSq (quatE st3) = 1 + 369 / 1024 - 9 / 32 * Real.sqrt 2 ∧
    quatNormSq (quatE st3) < 97 / 100 ∧
    quatNormSq (quatE st3) ≠ 1 := by
  have hr : Real.sqrt 2 * Real.sqrt 2 = 2 := Real.mul_self_sqrt (by norm_num)
  have h141 : (1.41 : ℝ) < Real.sqrt 2 := by
    rw [show (1.41 : ℝ) = Real.sqrt (1.41 ^ 2) from
      (Real.sqrt_sq (by norm_num)).symm]
    exact Real.sqrt_lt_sqrt (by positivity) (by norm_num)
  have heq : quatNormSq (quatE st3) = 1 + 369 / 1024 - 9 / 32 * Real.sqrt 2 := by
    rw [st3_eq]
    simp only [quatNormSq, quatE, st3Val, zeroHState]
    linear_combination (41 / 64 : ℝ) * hr
  refine ⟨heq, ?_, ?_⟩
  · rw [heq]; linarith
  · rw [heq]; intro hcontra; linarith

/-- Claim C2: in the third scenario call, the code stores
`E0 = √2/2 - 9/32` while the standard Hamilton product of the same `p` and `q`
has first component `√2/2`: the `p2*p2` term of the source's composition
differs from the Hamilton product (the other three components agree). -/
theorem c2_hamilton_violated :
    st3.E0 = Real.sqrt 2 / 2 - 9 / 32 ∧
    (hamilton (pOf (stage1 st2 mC) mC) (qOf (stage1 st2 mC) mC)).q0 =
      Real.sqrt 2 / 2 ∧
    st3.E0 ≠ (hamilton (pOf (stage1 st2 mC) mC) (qOf (stage1 st2 mC) mC)).q0 := by
  have hst : stage1 st2 mC = s1c := by rw [st2_eq]; exact stage1_mC
  have hE0 : st3.E0 = Real.sqrt 2 / 2 - 9 / 32 := by
    rw [st3_eq]; simp [st3Val, zeroHState]
  have hham :
      (hamilton (pOf (stage1 st2 mC) mC) (qOf (stage1 st2 mC) mC)).q0 =
        Real.sqrt 2 / 2 := by
    rw [hst, pq_call3.1, pq_call3.2]
    simp [hamilton]
  exact ⟨hE0, hham, by rw [hE0, hham]; intro hcontra; linarith⟩

/-- Claim C3: with apparent gravity `ae = (0,0,-2)` (smoothed vertical
acceleration `Z3 = 1`), forward axis `xe = (1,0,0)` and GPS heading
`we = (0,1,0)`, the source's `v` comes out as `(2,0,0)` — it is divided by the
norm of the already-normalized `u` (which is 1), not by its own magnitude 2,
so it differs from the spec's own-magnitude normalization `(1,0,0)`. -/
theorem c3_v_normalization_violated :
    uHat ⟨0, 0, -2⟩ ⟨1, 0, 0⟩ = ⟨0, -1, 0⟩ ∧
    vHat ⟨0, 0, -2⟩ ⟨0, 1, 0⟩ (uHat ⟨0, 0, -2⟩ ⟨1, 0, 0⟩) = ⟨2, 0, 0⟩ ∧
    vHatSpecNorm ⟨0, 0, -2⟩ ⟨0, 1, 0⟩ = ⟨1, 0, 0⟩ ∧
    vHat ⟨0, 0, -2⟩ ⟨0, 1, 0⟩ (uHat ⟨0, 0, -2⟩ ⟨1, 0, 0⟩) ≠
      vHatSpecNorm ⟨0, 0, -2⟩ ⟨0, 1, 0⟩ := by
  have hu : uHat ⟨0, 0, -2⟩ ⟨1, 0, 0⟩ = ⟨0, -1, 0⟩ := by
    have hcross : cross3 ⟨0, 0, -2⟩ ⟨1, 0, 0⟩ = ⟨0, -2, 0⟩ := by
      ext <;> norm_num [cross3]
    have hn : norm3 (⟨0, -2, 0⟩ : Vec3) = 2 :=
      norm3_eval _ 2 (by norm_num) (by norm_num)
    simp only [uHat, hcross, hn]
    ext <;> norm_num
  have hcrossv : cross3 ⟨0, 0, -2⟩ ⟨0, 1, 0⟩ = ⟨2, 0, 0⟩ := by
    ext <;> norm_num [cross3]
  have hv : vHat ⟨0, 0, -2⟩ ⟨0, 1, 0⟩ (uHat ⟨0, 0, -2⟩ ⟨1, 0, 0⟩) = ⟨2, 0, 0⟩ := by
    rw [hu]
    have hn : norm3 (⟨0, -1, 0⟩ : Vec3) = 1 :=
      norm3_eval _ 1 (by norm_num) (by norm_num)
    simp only [vHat, hcrossv, hn]
    ext <;> norm_num
  have hvspec : vHatSpecNorm ⟨0, 0, -2⟩ ⟨0, 1, 0⟩ = ⟨1, 0, 0⟩ := by
    have hn : norm3 (⟨2, 0, 0⟩ : Vec3) = 2 :=
      norm3_eval _ 2 (by norm_num) (by norm_num)
    simp only [vHatSpecNorm, hcrossv, hn]
    ext <;> norm_num
  refine ⟨hu, hv, hvspec, ?_⟩
  rw [hv, hvspec]
  intro hcontra
  have := congrArg Vec3.x hcontra
  norm_num at this

/-- Claim C10: `InitializeHeuristic` ignores its measurement argument and
returns the all-zero state: the initial quaternion is the zero quaternion
(norm 0, not a unit quaternion) and the initial reference time is 0. -/
theorem c10_initialize_zero (m m' : Measurement) :
    InitializeHeuristic m = zeroHState ∧
    InitializeHeuristic m = InitializeHeuristic m' ∧
    quatNormSq (quatE (InitializeHeuristic m)) = 0 ∧
    (InitializeHeuristic m).T = 0 ∧
    quatNormSq (quatE (InitializeHeuristic m)) ≠ 1 := by
  refine ⟨rfl, rfl, ?_, rfl, ?_⟩ <;>
    norm_num [InitializeHeuristic, zeroHState, quatNormSq, quatE]

end ahrs
